import Mathlib

/-!
Shallow embedding of `cloud/digital_ocean/digital_ocean_sshkey.py`
(the DigitalOcean SSH-key reconciler module).

The module's `core(module)` function:
  * resolves the API token as
      `module.params['api_token'] or os.environ['DO_API_TOKEN'] or os.environ['DO_API_KEY']`
    where a bare `os.environ[k]` lookup raises `KeyError` when `k` is unset,
    caught and turned into `fail_json(msg='Unable to load <k>')`;
  * loads `name` via `getkeyordie` (fails only when the value is `None`);
  * on `state=present`: `SSH.find(name)` (which lists all remote keys, unless
    `name` is falsy, in which case it returns `False` without any remote
    call); if found, `exit_json(changed=False, ssh_key=...)`; otherwise
    `SSH.add(name, getkeyordie('ssh_pub_key'))` and
    `exit_json(changed=True, ssh_key=...)`;
  * on `state=absent`: `SSH.find(name)`; if not found,
    `exit_json(changed=False, msg='SSH key with the name of <name> is not found.')`;
    otherwise `key.destroy()` (deletes by the matched key's id) and
    `exit_json(changed=True)`.

Remote provider interaction is modelled as a deterministic inventory
(`List SshKey`): listing returns the inventory, creating appends a record
with a fresh provider-assigned id and the requested name and key material,
deleting removes the record(s) with the given id.  Every remote call the
code would issue is recorded in a trace.
-/

/-- One remote SSH key record, as the provider returns it
(`SSH.__init__` populates the object from the response JSON:
numeric `id`, `name`, public key material). -/
structure SshKey where
  id : Nat
  name : String
  pub_key : String
deriving Repr, DecidableEq

/-- The module parameters relevant to `core` (`module.params`); a parameter
the caller did not supply is `none`, mirroring AnsibleModule filling
unspecified options with `None`. -/
structure Params where
  state : Bool            -- `true` = "present", `false` = "absent"
                          -- (argument_spec restricts choices to these two)
  api_token : Option String
  name : Option String
  ssh_pub_key : Option String
deriving Repr, DecidableEq

/-- The two environment variables the credential fallback chain consults;
`none` means the variable is unset (a lookup raises `KeyError`). -/
structure Env where
  do_api_token : Option String
  do_api_key : Option String
deriving Repr, DecidableEq

/-- Python truthiness of an optional string: `None` and `''` are falsy. -/
def truthy : Option String → Bool
  | none => false
  | some s => s ≠ ""

/-- The remote calls `core` can issue through the dopy manager. -/
inductive RemoteCall where
  | list                              -- `manager.all_ssh_keys()`
  | create (name : String) (pub : String)  -- `manager.new_ssh_key(name, key_pub)`
  | destroy (id : Nat)                -- `manager.destroy_ssh_key(id)`
deriving Repr, DecidableEq

/-- The observable result of one invocation: a successful JSON exit
(`module.exit_json`) or a failure (`module.fail_json`). -/
inductive Outcome where
  | exitJson (changed : Bool) (ssh_key : Option SshKey) (msg : Option String)
  | failJson (msg : String)
deriving Repr, DecidableEq

/-- `api_token = module.params['api_token'] or os.environ['DO_API_TOKEN']
or os.environ['DO_API_KEY']`, with `KeyError` on a bare lookup of an unset
variable.  `or` returns its left operand when truthy, otherwise evaluates
and returns the right operand (the last operand is returned even when
falsy). -/
def resolveToken (api_token : Option String) (env : Env) : Except String String :=
  if truthy api_token then
    Except.ok (api_token.getD "")
  else
    match env.do_api_token with
    | none => Except.error "DO_API_TOKEN"      -- KeyError: 'DO_API_TOKEN'
    | some t =>
      if t ≠ "" then Except.ok t
      else
        match env.do_api_key with
        | none => Except.error "DO_API_KEY"    -- KeyError: 'DO_API_KEY'
        | some k => Except.ok k

/-- `SSH.find(name)`: returns `False` (here `none`) without any remote call
when `name` is falsy; otherwise lists all keys and returns the first whose
`name` attribute equals the argument (Python `==` on strings: exact,
case-sensitive). -/
def SSH_find (name : Option String) (keys : List SshKey) : Option SshKey :=
  match name with
  | none => none
  | some n => if n = "" then none else keys.find? (fun k => k.name = n)

/-- A fresh provider-assigned id: larger than every id in the inventory. -/
def freshId (keys : List SshKey) : Nat :=
  (keys.map SshKey.id).foldr max 0 + 1

/-- Result of one `core` invocation: the JSON outcome, the trace of remote
calls issued (in order), and the provider inventory afterwards. -/
structure CoreResult where
  outcome : Outcome
  trace : List RemoteCall
  finalState : List SshKey
deriving Repr, DecidableEq

/-- `getkeyordie(k)`: fails with `Unable to load <k>` when
`module.params[k] is None`, otherwise returns the value (an empty string
passes). -/
def getkeyordie (v : Option String) (k : String) : Except String String :=
  match v with
  | none => Except.error ("Unable to load " ++ k)
  | some s => Except.ok s

/-- The reconciliation body `core(module)`, run against a provider whose
inventory is `st`.  `fail_json` / `exit_json` terminate the process, so the
translation returns at the first of them reached. -/
def core (p : Params) (env : Env) (st : List SshKey) : CoreResult :=
  match resolveToken p.api_token env with
  | Except.error k => ⟨Outcome.failJson ("Unable to load " ++ k), [], st⟩
  | Except.ok _tok =>
    match p.name with
    | none => ⟨Outcome.failJson "Unable to load name", [], st⟩
    | some name =>
      if p.state then
        -- state = "present"
        if name = "" then
          -- SSH.find returns False with no remote call
          match p.ssh_pub_key with
          | none => ⟨Outcome.failJson "Unable to load ssh_pub_key", [], st⟩
          | some pub =>
            let created : SshKey := ⟨freshId st, name, pub⟩
            ⟨Outcome.exitJson true (some created) none,
             [RemoteCall.create name pub], st ++ [created]⟩
        else
          match st.find? (fun k => k.name = name) with
          | some key =>
            ⟨Outcome.exitJson false (some key) none, [RemoteCall.list], st⟩
          | none =>
            match p.ssh_pub_key with
            | none =>
              ⟨Outcome.failJson "Unable to load ssh_pub_key", [RemoteCall.list], st⟩
            | some pub =>
              let created : SshKey := ⟨freshId st, name, pub⟩
              ⟨Outcome.exitJson true (some created) none,
               [RemoteCall.list, RemoteCall.create name pub], st ++ [created]⟩
      else
        -- state = "absent"
        if name = "" then
          ⟨Outcome.exitJson false none
             (some ("SSH key with the name of " ++ name ++ " is not found.")),
           [], st⟩
        else
          match st.find? (fun k => k.name = name) with
          | none =>
            ⟨Outcome.exitJson false none
               (some ("SSH key with the name of " ++ name ++ " is not found.")),
             [RemoteCall.list], st⟩
          | some key =>
            ⟨Outcome.exitJson true none none,
             [RemoteCall.list, RemoteCall.destroy key.id],
             st.filter (fun k => k.id ≠ key.id)⟩

/-- A remote call is mutating when it is a create or a destroy. -/
def RemoteCall.isMutating : RemoteCall → Bool
  | RemoteCall.list => false
  | RemoteCall.create _ _ => true
  | RemoteCall.destroy _ => true

/-- Whether an outcome is a failure exit. -/
def Outcome.isFail : Outcome → Bool
  | Outcome.failJson _ => true
  | _ => false

/-! ## Helper lemmas (shared) -/

lemma find?_append_of_none {α : Type} (p : α → Bool) (l1 l2 : List α)
    (h : l1.find? p = none) : (l1 ++ l2).find? p = l2.find? p := by
  induction l1 with
  | nil => rfl
  | cons a l ih =>
    rw [List.find?_eq_none] at h
    have ha : ¬ p a = true := h a (List.mem_cons_self a l)
    have hl : l.find? p = none := by
      rw [List.find?_eq_none]
      exact fun x hx => h x (List.mem_cons_of_mem a hx)
    simpa [List.find?_cons_of_neg _ (by simpa using ha)] using ih hl

lemma find?_first_match {α : Type} (p : α → Bool) (l1 l2 : List α) (k : α)
    (hk : p k = true) (h : ∀ x ∈ l1, ¬ p x = true) :
    (l1 ++ k :: l2).find? p = some k := by
  rw [find?_append_of_none p l1 _ (List.find?_eq_none.mpr h)]
  exact List.find?_cons_of_pos _ hk

lemma find?_none_of_no_match (st : List SshKey) (n : String)
    (h : ∀ x ∈ st, x.name ≠ n) :
    st.find? (fun k => k.name = n) = none := by
  rw [List.find?_eq_none]
  intro x hx
  simpa using h x hx

/-! ## Claim theorems -/

/-- C1: the spec (and the module's own DOCUMENTATION notes, which say either
of the two environment variables can be used) requires the credential to
fall back to `DO_API_KEY` when the parameter is absent and only
`DO_API_KEY` is set.  The code instead evaluates `os.environ['DO_API_TOKEN']`,
whose `KeyError` aborts the run: with no `api_token` parameter,
`DO_API_TOKEN` unset and `DO_API_KEY='SECRET'`, the invocation fails with
`Unable to load DO_API_TOKEN` and makes no remote call, instead of
succeeding with the `DO_API_KEY` value. -/
theorem C1_env_fallback_bug :
    resolveToken none ⟨none, some "SECRET"⟩ = Except.error "DO_API_TOKEN" ∧
      core ⟨true, none, some "k", some "P"⟩ ⟨none, some "SECRET"⟩ [] =
        ⟨Outcome.failJson "Unable to load DO_API_TOKEN", [], []⟩ :=
  ⟨rfl, rfl⟩

/-- C2 counterexample: a missing `ssh_pub_key` on the create path is only
detected after `SSH.find` has already listed the remote inventory, so the
configuration failure is not "surfaced before any remote provider call":
with `state=present`, a valid token, `name="k"` and no `ssh_pub_key`, the
run fails with `Unable to load ssh_pub_key` after issuing one remote list
call. -/
theorem C2_counterexample :
    (core ⟨true, some "T", some "k", none⟩ ⟨none, none⟩ []).outcome =
        Outcome.failJson "Unable to load ssh_pub_key" ∧
      (core ⟨true, some "T", some "k", none⟩ ⟨none, none⟩ []).trace =
        [RemoteCall.list] :=
  ⟨rfl, rfl⟩

/-- C2 (amended): every configuration failure (`fail_json`) happens before
any mutating remote call — the trace of a failing run contains only list
calls and the inventory is left unchanged; moreover a missing credential or
a missing `name` fails before any remote call at all (empty trace).  A
missing `ssh_pub_key` on the create path, however, may fail only after the
inventory list call. -/
theorem C2_config_error_before_mutation (p : Params) (env : Env) (st : List SshKey) :
    ((core p env st).outcome.isFail = true →
        (∀ c ∈ (core p env st).trace, c = RemoteCall.list) ∧
          (core p env st).finalState = st) ∧
      ((∃ e, resolveToken p.api_token env = Except.error e) ∨ p.name = none →
        (core p env st).trace = [] ∧ (core p env st).outcome.isFail = true) := by
  unfold core
  cases hr : resolveToken p.api_token env with
  | error e =>
    refine ⟨fun _ => ⟨?_, rfl⟩, fun _ => ⟨rfl, rfl⟩⟩
    intro c hc
    simp at hc
  | ok tok =>
    cases hn : p.name with
    | none =>
      refine ⟨fun _ => ⟨?_, rfl⟩, fun _ => ⟨rfl, rfl⟩⟩
      intro c hc
      simp at hc
    | some name =>
      constructor
      · intro hfail
        by_cases hs : p.state
        · simp only [hs, if_true]
          by_cases he : name = ""
          · simp only [he, if_true]
            cases hk : p.ssh_pub_key with
            | none => exact ⟨fun c hc => by simp at hc, rfl⟩
            | some pub =>
              exfalso
              simp only [hs, he, hk, if_true] at hfail
              simp [Outcome.isFail] at hfail
          · simp only [if_neg he]
            cases hf : st.find? (fun k => k.name = name) with
            | some key =>
              exfalso
              simp only [hs, if_true, if_neg he, hf] at hfail
              simp [Outcome.isFail] at hfail
            | none =>
              cases hk : p.ssh_pub_key with
              | none =>
                refine ⟨fun c hc => ?_, rfl⟩
                simp at hc
                exact hc
              | some pub =>
                exfalso
                simp only [hs, if_true, if_neg he, hf, hk] at hfail
                simp [Outcome.isFail] at hfail
        · simp only [if_neg hs]
          by_cases he : name = ""
          · exfalso
            simp only [if_neg hs, he, if_true] at hfail
            simp [Outcome.isFail] at hfail
          · simp only [if_neg he]
            cases hf : st.find? (fun k => k.name = name) with
            | none =>
              refine ⟨fun c hc => ?_, rfl⟩
              simp at hc
              exact hc
            | some key =>
              exfalso
              simp only [if_neg hs, if_neg he, hf] at hfail
              simp [Outcome.isFail] at hfail
      · intro h
        rcases h with ⟨e, he⟩ | hnone
        · exact absurd he (by simp)
        · exact absurd hnone (by simp)

/-- C2 witness: the amended theorem applied at concrete inputs — a failing
present-run with missing `ssh_pub_key` issues only list calls, and a run
with no resolvable credential issues no remote call. -/
theorem C2_config_error_witness :
    (∀ c ∈ (core ⟨true, some "T", some "k", none⟩ ⟨none, none⟩ []).trace,
        c = RemoteCall.list) ∧
      (core ⟨true, none, some "k", none⟩ ⟨none, none⟩ []).trace = [] :=
  ⟨((C2_config_error_before_mutation ⟨true, some "T", some "k", none⟩ ⟨none, none⟩ []).1
      (by decide)).1,
   ((C2_config_error_before_mutation ⟨true, none, some "k", none⟩ ⟨none, none⟩ []).2
      (Or.inl ⟨"DO_API_TOKEN", rfl⟩)).1⟩

/-- C3 counterexample: an empty-string `name` is NOT rejected —
`getkeyordie` only fails on `None` — and on the present path
(`SSH.find('')` returns `False`) a create call is performed with the empty
name: with `state=present`, `name=''`, `ssh_pub_key='PUB'`, the run exits
`changed=true` after one create call instead of failing with a
`ConfigError`. -/
theorem C3_counterexample :
    (core ⟨true, some "T", some "", some "PUB"⟩ ⟨none, none⟩ []).outcome =
        Outcome.exitJson true (some ⟨1, "", "PUB"⟩) none ∧
      (core ⟨true, some "T", some "", some "PUB"⟩ ⟨none, none⟩ []).trace =
        [RemoteCall.create "" "PUB"] :=
  ⟨rfl, rfl⟩

/-- C3 (amended): the reconciler fails with `Unable to load name` — making
no remote call and leaving the inventory unchanged — only when the `name`
parameter is absent (`None`); an empty-string `name` passes the check and
the run proceeds. -/
theorem C3_name_absent_fails (p : Params) (env : Env) (st : List SshKey) (tok : String)
    (hok : resolveToken p.api_token env = Except.ok tok) (hname : p.name = none) :
    core p env st = ⟨Outcome.failJson "Unable to load name", [], st⟩ := by
  unfold core
  rw [hok, hname]

/-- C3 witness: the amended theorem at a concrete input. -/
theorem C3_name_absent_fails_witness :
    core ⟨true, some "T", none, some "P"⟩ ⟨none, none⟩ [] =
      ⟨Outcome.failJson "Unable to load name", [], []⟩ :=
  C3_name_absent_fails ⟨true, some "T", none, some "P"⟩ ⟨none, none⟩ [] "T" rfl rfl

/-- C4 counterexample: the claim fails when the requested name is the empty
string and a key with that (empty) name exists in the inventory — the
lookup `SSH.find('')` short-circuits to `False`, so instead of returning
`changed=false` with the matched key, the module performs a create call and
exits `changed=true`. -/
theorem C4_counterexample :
    ((⟨1, "", "OLD"⟩ : SshKey) ∈ ([⟨1, "", "OLD"⟩] : List SshKey) ∧
        (SshKey.mk 1 "" "OLD").name = "") ∧
      (core ⟨true, some "T", some "", some "NEW"⟩ ⟨none, none⟩ [⟨1, "", "OLD"⟩]).outcome =
        Outcome.exitJson true (some ⟨2, "", "NEW"⟩) none ∧
      (core ⟨true, some "T", some "", some "NEW"⟩ ⟨none, none⟩ [⟨1, "", "OLD"⟩]).trace =
        [RemoteCall.create "" "NEW"] :=
  ⟨⟨List.mem_singleton.mpr rfl, rfl⟩, rfl, rfl⟩

/-- C4 (amended): for every present-request with a NON-EMPTY name that
matches an existing inventory key, the run exits `changed=false` carrying
the first matched key's snapshot, issues only the list call (no create or
delete), and leaves the inventory unchanged — regardless of the supplied
`ssh_pub_key`. -/
theorem C4_present_match_no_change (p : Params) (env : Env) (st : List SshKey)
    (n tok : String)
    (hok : resolveToken p.api_token env = Except.ok tok)
    (hstate : p.state = true) (hname : p.name = some n) (hne : n ≠ "")
    (hex : ∃ x ∈ st, x.name = n) :
    ∃ k, st.find? (fun x => x.name = n) = some k ∧ k.name = n ∧
      core p env st = ⟨Outcome.exitJson false (some k) none, [RemoteCall.list], st⟩ := by
  have hsome : (st.find? (fun x => x.name = n)).isSome := by
    rw [List.find?_isSome]
    rcases hex with ⟨x, hx, hxn⟩
    exact ⟨x, hx, by simpa using hxn⟩
  rcases Option.isSome_iff_exists.mp hsome with ⟨k, hk⟩
  refine ⟨k, hk, by simpa using List.find?_some hk, ?_⟩
  unfold core
  rw [hok, hname]
  simp only [hstate, if_true, if_neg hne, hk]

/-- C4 witness: the amended theorem at a concrete input (existing key
`OLD` named `k`; the supplied `ssh_pub_key` differs and is ignored). -/
theorem C4_present_match_no_change_witness :
    ∃ k, ([⟨1, "k", "OLD"⟩] : List SshKey).find? (fun x => x.name = "k") = some k ∧
      k.name = "k" ∧
      core ⟨true, some "T", some "k", some "NEW"⟩ ⟨none, none⟩ [⟨1, "k", "OLD"⟩] =
        ⟨Outcome.exitJson false (some k) none, [RemoteCall.list], [⟨1, "k", "OLD"⟩]⟩ :=
  C4_present_match_no_change ⟨true, some "T", some "k", some "NEW"⟩ ⟨none, none⟩
    [⟨1, "k", "OLD"⟩] "k" "T" rfl rfl rfl (by decide)
    ⟨⟨1, "k", "OLD"⟩, List.mem_singleton.mpr rfl, rfl⟩

/-- C5: for every present-request whose name matches no inventory key and
whose `ssh_pub_key` is supplied, the run exits `changed=true` carrying a
key whose name equals the requested name, issues exactly one mutating
remote call — the create with the requested name and key material — and
the inventory afterwards is the old one plus the created key.  (This holds
for the empty name too: the lookup then skips the list call and the trace
is just the create.) -/
theorem C5_present_creates (p : Params) (env : Env) (st : List SshKey)
    (n pub tok : String)
    (hok : resolveToken p.api_token env = Except.ok tok)
    (hstate : p.state = true) (hname : p.name = some n)
    (hpub : p.ssh_pub_key = some pub)
    (habsent : ∀ x ∈ st, x.name ≠ n) :
    (core p env st).outcome =
        Outcome.exitJson true (some ⟨freshId st, n, pub⟩) none ∧
      (SshKey.mk (freshId st) n pub).name = n ∧
      (core p env st).trace.filter RemoteCall.isMutating = [RemoteCall.create n pub] ∧
      (core p env st).finalState = st ++ [⟨freshId st, n, pub⟩] := by
  unfold core
  rw [hok, hname]
  by_cases he : n = ""
  · subst he
    simp only [hstate, if_true, hpub]
    refine ⟨?_, ?_, ?_, ?_⟩ <;> trivial
  · have hf := find?_none_of_no_match st n habsent
    simp only [hstate, if_true, if_neg he, hf, hpub]
    refine ⟨?_, ?_, ?_, ?_⟩ <;> trivial

/-- C5 witness: the theorem at a concrete input (empty inventory, name
`deploy`). -/
theorem C5_present_creates_witness :
    (core ⟨true, some "T", some "deploy", some "ssh-rsa AAAA"⟩ ⟨none, none⟩ []).outcome =
        Outcome.exitJson true (some ⟨1, "deploy", "ssh-rsa AAAA"⟩) none ∧
      (SshKey.mk 1 "deploy" "ssh-rsa AAAA").name = "deploy" ∧
      (core ⟨true, some "T", some "deploy", some "ssh-rsa AAAA"⟩ ⟨none, none⟩
          []).trace.filter RemoteCall.isMutating =
        [RemoteCall.create "deploy" "ssh-rsa AAAA"] ∧
      (core ⟨true, some "T", some "deploy", some "ssh-rsa AAAA"⟩ ⟨none, none⟩
          []).finalState = [⟨1, "deploy", "ssh-rsa AAAA"⟩] :=
  C5_present_creates ⟨true, some "T", some "deploy", some "ssh-rsa AAAA"⟩ ⟨none, none⟩
    [] "deploy" "ssh-rsa AAAA" "T" rfl rfl rfl rfl (by decide)

/-- C6 counterexample: present-state idempotence fails for the empty name
`k=''` (no pre-existing key of that name): `SSH.find('')` always returns
`False`, so both the first and the second run create a key and exit
`changed=true` — the second run does not return `changed=false`. -/
theorem C6_counterexample :
    (core ⟨true, some "T", some "", some "P"⟩ ⟨none, none⟩ []).outcome =
        Outcome.exitJson true (some ⟨1, "", "P"⟩) none ∧
      (core ⟨true, some "T", some "", some "P"⟩ ⟨none, none⟩
          (core ⟨true, some "T", some "", some "P"⟩ ⟨none, none⟩ []).finalState).outcome =
        Outcome.exitJson true (some ⟨2, "", "P"⟩) none :=
  ⟨rfl, rfl⟩

/-- C6 (amended): for every NON-EMPTY name `n` with no pre-existing key of
that name, running the reconciler with `state=present` twice in succession
(the second run listing the inventory produced by the first) yields
`changed=true` with the created key on the first run, and `changed=false`
on the second run carrying exactly the key the first run created. -/
theorem C6_present_idempotent (p : Params) (env : Env) (st : List SshKey)
    (n pub tok : String)
    (hok : resolveToken p.api_token env = Except.ok tok)
    (hstate : p.state = true) (hname : p.name = some n) (hne : n ≠ "")
    (hpub : p.ssh_pub_key = some pub)
    (habsent : ∀ x ∈ st, x.name ≠ n) :
    (core p env st).outcome =
        Outcome.exitJson true (some ⟨freshId st, n, pub⟩) none ∧
      core p env (core p env st).finalState =
        ⟨Outcome.exitJson false (some ⟨freshId st, n, pub⟩) none,
         [RemoteCall.list], (core p env st).finalState⟩ := by
  have hf := find?_none_of_no_match st n habsent
  have hcore1 : core p env st =
      ⟨Outcome.exitJson true (some ⟨freshId st, n, pub⟩) none,
       [RemoteCall.list, RemoteCall.create n pub], st ++ [⟨freshId st, n, pub⟩]⟩ := by
    unfold core
    rw [hok, hname]
    simp only [hstate, if_true, if_neg hne, hf, hpub]
  have hfind2 : (st ++ [(⟨freshId st, n, pub⟩ : SshKey)]).find?
      (fun k => k.name = n) = some ⟨freshId st, n, pub⟩ := by
    have h := find?_first_match (fun k : SshKey => decide (k.name = n)) st []
      ⟨freshId st, n, pub⟩ (by simp) (fun x hx => by simpa using habsent x hx)
    simpa using h
  rw [hcore1]
  refine ⟨rfl, ?_⟩
  unfold core
  rw [hok, hname]
  simp only [hstate, if_true, if_neg hne, hfind2]

/-- C6 witness: the amended theorem at a concrete input (empty inventory,
name `k`). -/
theorem C6_present_idempotent_witness :
    (core ⟨true, some "T", some "k", some "P"⟩ ⟨none, none⟩ []).outcome =
        Outcome.exitJson true (some ⟨1, "k", "P"⟩) none ∧
      core ⟨true, some "T", some "k", some "P"⟩ ⟨none, none⟩
          (core ⟨true, some "T", some "k", some "P"⟩ ⟨none, none⟩ []).finalState =
        ⟨Outcome.exitJson false (some ⟨1, "k", "P"⟩) none, [RemoteCall.list],
         (core ⟨true, some "T", some "k", some "P"⟩ ⟨none, none⟩ []).finalState⟩ :=
  C6_present_idempotent ⟨true, some "T", some "k", some "P"⟩ ⟨none, none⟩ []
    "k" "P" "T" rfl rfl rfl (by decide) rfl (by decide)

/-- C7 counterexample: when two inventory keys share the requested name,
the absent-run deletes only the first match's id and exits `changed=true`,
but a subsequent listing of the inventory STILL contains a key with that
name — refuting "a subsequent listing no longer contains a key named X". -/
theorem C7_counterexample :
    (core ⟨false, some "T", some "k", none⟩ ⟨none, none⟩
        [⟨1, "k", "P1"⟩, ⟨2, "k", "P2"⟩]).outcome = Outcome.exitJson true none none ∧
      (core ⟨false, some "T", some "k", none⟩ ⟨none, none⟩
        [⟨1, "k", "P1"⟩, ⟨2, "k", "P2"⟩]).trace =
        [RemoteCall.list, RemoteCall.destroy 1] ∧
      (core ⟨false, some "T", some "k", none⟩ ⟨none, none⟩
        [⟨1, "k", "P1"⟩, ⟨2, "k", "P2"⟩]).finalState.any (fun x => x.name = "k") = true :=
  ⟨rfl, rfl, rfl⟩

/-- C7 (amended): for EVERY absent-request with a non-empty name matching
some inventory key — duplicate names included — the run issues exactly the
list call followed by one delete call with the (first) matched key's id,
exits `changed=true`, and the resulting inventory is the old one minus the
keys bearing the matched id; when additionally every inventory key bearing
that name has the same id as the matched key — in particular whenever the
name is unique in the inventory — the resulting inventory contains no key
with that name. -/
theorem C7_absent_deletes (p : Params) (env : Env) (st : List SshKey)
    (n tok : String)
    (hok : resolveToken p.api_token env = Except.ok tok)
    (hstate : p.state = false) (hname : p.name = some n) (hne : n ≠ "")
    (hex : ∃ x ∈ st, x.name = n) :
    ∃ m, st.find? (fun x => x.name = n) = some m ∧
      core p env st = ⟨Outcome.exitJson true none none,
        [RemoteCall.list, RemoteCall.destroy m.id],
        st.filter (fun k => k.id ≠ m.id)⟩ ∧
      ((∀ x ∈ st, ∀ y ∈ st, x.name = n → y.name = n → x.id = y.id) →
        ∀ x ∈ (core p env st).finalState, x.name ≠ n) := by
  have hsome : (st.find? (fun x => x.name = n)).isSome := by
    rw [List.find?_isSome]
    rcases hex with ⟨x, hx, hxn⟩
    exact ⟨x, hx, by simpa using hxn⟩
  rcases Option.isSome_iff_exists.mp hsome with ⟨m, hm⟩
  have hmname : m.name = n := by simpa using List.find?_some hm
  have hmmem : m ∈ st := List.mem_of_find?_eq_some hm
  have hcore : core p env st = ⟨Outcome.exitJson true none none,
      [RemoteCall.list, RemoteCall.destroy m.id],
      st.filter (fun k => k.id ≠ m.id)⟩ := by
    unfold core
    rw [hok, hname]
    simp only [hstate, Bool.false_eq_true, if_false, if_neg hne, hm]
  refine ⟨m, hm, hcore, ?_⟩
  intro huniq x hx hxn
  rw [hcore] at hx
  have hx' := List.mem_filter.mp hx
  have hid : x.id = m.id := huniq x hx'.1 m hmmem hxn hmname
  have : x.id ≠ m.id := by simpa using hx'.2
  exact this hid

/-- C7 witness: the amended theorem at a concrete input (a single key named
`k` with id 7), the uniqueness premise of the final conjunct discharged
there as well. -/
theorem C7_absent_deletes_witness :
    (∃ m, ([⟨7, "k", "P"⟩] : List SshKey).find? (fun x => x.name = "k") = some m ∧
      core ⟨false, some "T", some "k", none⟩ ⟨none, none⟩ [⟨7, "k", "P"⟩] =
        ⟨Outcome.exitJson true none none,
         [RemoteCall.list, RemoteCall.destroy m.id],
         ([⟨7, "k", "P"⟩] : List SshKey).filter (fun k => k.id ≠ m.id)⟩ ∧
      ((∀ x ∈ ([⟨7, "k", "P"⟩] : List SshKey), ∀ y ∈ ([⟨7, "k", "P"⟩] : List SshKey),
          x.name = "k" → y.name = "k" → x.id = y.id) →
        ∀ x ∈ (core ⟨false, some "T", some "k", none⟩ ⟨none, none⟩
          [⟨7, "k", "P"⟩]).finalState, x.name ≠ "k")) ∧
      ∀ x ∈ (core ⟨false, some "T", some "k", none⟩ ⟨none, none⟩
          [⟨7, "k", "P"⟩]).finalState, x.name ≠ "k" := by
  have h := C7_absent_deletes ⟨false, some "T", some "k", none⟩ ⟨none, none⟩
    [⟨7, "k", "P"⟩] "k" "T" rfl rfl rfl (by decide)
    ⟨⟨7, "k", "P"⟩, List.mem_singleton.mpr rfl, rfl⟩
  refine ⟨h, ?_⟩
  rcases h with ⟨m, hm, hcore, himp⟩
  exact himp (by intro x hx y hy hxn hyn
                 rw [List.mem_singleton.mp hx, List.mem_singleton.mp hy])

/-- C8: for every absent-request whose (possibly empty) name matches no
inventory key, the run exits `changed=false` with the not-found message,
issues no mutating call (at most the list call), leaves the inventory
unchanged — and therefore repeating the identical request against the
resulting inventory produces the identical `changed=false` result. -/
theorem C8_absent_no_match (p : Params) (env : Env) (st : List SshKey)
    (n tok : String)
    (hok : resolveToken p.api_token env = Except.ok tok)
    (hstate : p.state = false) (hname : p.name = some n)
    (habsent : ∀ x ∈ st, x.name ≠ n) :
    (core p env st).outcome =
        Outcome.exitJson false none
          (some ("SSH key with the name of " ++ n ++ " is not found.")) ∧
      (∀ c ∈ (core p env st).trace, c = RemoteCall.list) ∧
      (core p env st).finalState = st ∧
      core p env ((core p env st).finalState) = core p env st := by
  have hf := find?_none_of_no_match st n habsent
  have hcore : core p env st =
      ⟨Outcome.exitJson false none
         (some ("SSH key with the name of " ++ n ++ " is not found.")),
       if n = "" then [] else [RemoteCall.list], st⟩ := by
    unfold core
    rw [hok, hname]
    by_cases he : n = ""
    · simp only [hstate, Bool.false_eq_true, if_false, he, if_true]
    · simp only [hstate, Bool.false_eq_true, if_false, if_neg he, hf]
  refine ⟨by rw [hcore], ?_, by rw [hcore], ?_⟩
  · rw [hcore]
    intro c hc
    by_cases he : n = ""
    · simp [he] at hc
    · simp only [if_neg he, List.mem_singleton] at hc
      exact hc
  · have hfs : (core p env st).finalState = st := by rw [hcore]
    rw [hfs]

/-- C8 witness: the theorem at a concrete input (inventory holding only a
key with a different name). -/
theorem C8_absent_no_match_witness :
    (core ⟨false, some "T", some "k", none⟩ ⟨none, none⟩ [⟨1, "other", "P"⟩]).outcome =
        Outcome.exitJson false none
          (some ("SSH key with the name of " ++ "k" ++ " is not found.")) ∧
      (∀ c ∈ (core ⟨false, some "T", some "k", none⟩ ⟨none, none⟩
          [⟨1, "other", "P"⟩]).trace, c = RemoteCall.list) ∧
      (core ⟨false, some "T", some "k", none⟩ ⟨none, none⟩
          [⟨1, "other", "P"⟩]).finalState = [⟨1, "other", "P"⟩] ∧
      core ⟨false, some "T", some "k", none⟩ ⟨none, none⟩
          ((core ⟨false, some "T", some "k", none⟩ ⟨none, none⟩
            [⟨1, "other", "P"⟩]).finalState) =
        core ⟨false, some "T", some "k", none⟩ ⟨none, none⟩ [⟨1, "other", "P"⟩] :=
  C8_absent_no_match ⟨false, some "T", some "k", none⟩ ⟨none, none⟩
    [⟨1, "other", "P"⟩] "k" "T" rfl rfl rfl (by decide)

/-- C9: `SSH.find` returns nothing when the name is absent (`None`) or
empty, and otherwise returns the FIRST record in list order whose name
equals the input under exact (case-sensitive) string equality — first match
wins when duplicates exist — and nothing when no record's name matches. -/
theorem C9_find_first_match_spec :
    (∀ keys, SSH_find none keys = none) ∧
      (∀ keys, SSH_find (some "") keys = none) ∧
      (∀ (n : String) (l1 l2 : List SshKey) (k : SshKey), n ≠ "" → k.name = n →
        (∀ x ∈ l1, x.name ≠ n) → SSH_find (some n) (l1 ++ k :: l2) = some k) ∧
      (∀ (n : String) (keys : List SshKey), (∀ x ∈ keys, x.name ≠ n) →
        SSH_find (some n) keys = none) := by
  refine ⟨fun keys => rfl, fun keys => by simp [SSH_find], ?_, ?_⟩
  · intro n l1 l2 k hn hk h
    simp only [SSH_find]
    rw [if_neg hn]
    exact find?_first_match _ l1 l2 k (by simpa using hk)
      (fun x hx => by simpa using h x hx)
  · intro n keys h
    simp only [SSH_find]
    by_cases hn : n = ""
    · simp [hn]
    · rw [if_neg hn]
      exact find?_none_of_no_match keys n h

/-- C9 witness: first-match-wins on a list with duplicate names (`id=2`
beats `id=3`), and case sensitivity (`K` does not match `k`). -/
theorem C9_find_first_match_spec_witness :
    SSH_find (some "k") [⟨1, "a", "p"⟩, ⟨2, "k", "q"⟩, ⟨3, "k", "r"⟩] =
        some ⟨2, "k", "q"⟩ ∧
      SSH_find (some "K") [⟨2, "k", "q"⟩] = none :=
  ⟨C9_find_first_match_spec.2.2.1 "k" [⟨1, "a", "p"⟩] [⟨3, "k", "r"⟩] ⟨2, "k", "q"⟩
      (by decide) rfl (by decide),
   C9_find_first_match_spec.2.2.2 "K" [⟨2, "k", "q"⟩] (by decide)⟩

/-- C10: an `api_token` parameter supplied as the empty string is treated
exactly like an absent parameter — credential resolution (and hence the
whole run) behaves identically, falling through to the environment
variables because the `or` chain tests truthiness, not presence; likewise a
`DO_API_TOKEN` set to the empty string is skipped in favour of
`DO_API_KEY`. -/
theorem C10_empty_token_falls_through :
    (∀ env : Env, resolveToken (some "") env = resolveToken none env) ∧
      (∀ (env : Env) (st : List SshKey) (state : Bool) (nm pub : Option String),
        core ⟨state, some "", nm, pub⟩ env st = core ⟨state, none, nm, pub⟩ env st) ∧
      (∀ (env : Env) (k : String), env.do_api_token = some "" →
        env.do_api_key = some k → resolveToken none env = Except.ok k) := by
  have h1 : ∀ env : Env, resolveToken (some "") env = resolveToken none env := by
    intro env
    unfold resolveToken
    simp [truthy]
  refine ⟨h1, ?_, ?_⟩
  · intro env st state nm pub
    unfold core
    rw [show resolveToken (Params.mk state (some "") nm pub).api_token env =
          resolveToken (Params.mk state none nm pub).api_token env from h1 env]
  · intro env k ht hk
    unfold resolveToken
    simp [truthy, ht, hk]

/-- C10 witness: with the parameter empty and `DO_API_TOKEN=''`,
`DO_API_KEY='K'`, resolution behaves like an absent parameter and yields
`K`. -/
theorem C10_empty_token_falls_through_witness :
    resolveToken (some "") ⟨some "", some "K"⟩ =
        resolveToken none ⟨some "", some "K"⟩ ∧
      core ⟨true, some "", some "k", some "P"⟩ ⟨some "", some "K"⟩ [] =
        core ⟨true, none, some "k", some "P"⟩ ⟨some "", some "K"⟩ [] ∧
      resolveToken none ⟨some "", some "K"⟩ = Except.ok "K" :=
  ⟨C10_empty_token_falls_through.1 ⟨some "", some "K"⟩,
   C10_empty_token_falls_through.2.1 ⟨some "", some "K"⟩ [] true (some "k") (some "P"),
   C10_empty_token_falls_through.2.2 ⟨some "", some "K"⟩ "K" rfl rfl⟩
